import Mathlib

/-!
Verification of the StretchTimer desktop reminder utility
(`src/stretch_timer.py`) against its natural-language specification.

The Python program is shallowly embedded: each relevant method of
`StretchTimerApp` becomes a pure Lean function over an explicit state
record, the one-second background loop body becomes a step function, and
the UI actions that touch timer state (pause toggle, interval spinbox)
become events folded over the state.
-/

set_option autoImplicit false

namespace StretchTimer

/-! ## Time of day and the quiet-hours evaluator (`is_quiet_hours`) -/

/-- A time of day at minute granularity, as produced by
`datetime.strptime(s, "%H:%M").time()`.  Python compares `time` objects
lexicographically by (hour, minute, second, microsecond); the parsed
values always have second = microsecond = 0. -/
structure TimeHM where
  hour : Nat
  minute : Nat
deriving DecidableEq, Repr

/-- Lexicographic order on (hour, minute), mirroring Python `time`
comparison `a <= b`. -/
def TimeHM.leB (a b : TimeHM) : Bool :=
  Nat.blt a.hour b.hour || (Nat.beq a.hour b.hour && Nat.ble a.minute b.minute)

/-- Total minutes since midnight. -/
def TimeHM.toMinutes (t : TimeHM) : Nat :=
  t.hour * 60 + t.minute

/-- Split a character list at each colon, mirroring the field structure
that `strptime` with format `"%H:%M"` expects. -/
def splitColon : List Char → List (List Char)
  | [] => [[]]
  | c :: cs =>
    let rest := splitColon cs
    if c = ':' then [] :: rest
    else
      match rest with
      | r :: rs => (c :: r) :: rs
      | [] => [[c]]

/-- Decimal value of a digit character. -/
def digitVal (c : Char) : Nat := c.toNat - 48

/-- Parse a `%H`/`%M` field: one or two decimal digits.
`strptime` matches each of `%H` and `%M` against `\d{1,2}`. -/
def parseField2 : List Char → Option Nat
  | [c] => if c.isDigit then some (digitVal c) else none
  | [c, d] =>
    if c.isDigit && d.isDigit then some (digitVal c * 10 + digitVal d) else none
  | _ => none

/-- Embedding of `datetime.strptime(s, "%H:%M").time()`: exactly two
digit fields separated by one colon, hour in 0..23, minute in 0..59;
any other input raises `ValueError` in Python, here `none`. -/
def parseHHMM (s : String) : Option TimeHM :=
  match splitColon s.toList with
  | [hs, ms] =>
    match parseField2 hs, parseField2 ms with
    | some h, some m => if h ≤ 23 && m ≤ 59 then some ⟨h, m⟩ else none
    | _, _ => none
  | _ => none

/-- Embedding of `StretchTimerApp.is_quiet_hours` (stretch_timer.py
lines 1129-1152).  The `try/except ValueError` around the two `strptime`
calls becomes the `none` fall-through returning `false`. -/
def is_quiet_hours (quiet_enabled : Bool) (quiet_start quiet_end : String)
    (now : TimeHM) : Bool :=
  if !quiet_enabled then false
  else
    match parseHHMM quiet_start, parseHHMM quiet_end with
    | some s, some e =>
      if s.leB e then s.leB now && now.leB e
      else s.leB now || now.leB e
    | _, _ => false

/-! ## Content catalog (names of the static tables) -/

/-- Names of the entries of `STRETCHES` (stretch_timer.py lines 238-475). -/
def STRETCHES : List String :=
  ["Neck Half-Rolls", "Neck Side Stretch", "Chin Tucks", "Neck Rotation",
   "Forward Neck Stretch", "Shoulder Rolls", "Shoulder Shrugs",
   "Cross-Body Arm Stretch", "Chest Opener", "Reach for the Ceiling",
   "Standing Toe Touch", "Torso Twist", "Side Bends", "Wrist Circles",
   "Arm Circles", "Wrist Flexor Stretch", "One Leg Balance", "Calf Raises",
   "March in Place", "Standing Quad Stretch", "Standing Hip Flexor Stretch"]

/-- Names of the entries of `EYE_EXERCISES` (lines 178-236). -/
def EYE_EXERCISES : List String :=
  ["Eye Focus - Window Gaze", "Eye Focus - Near and Far", "20-20-20 Rule",
   "Eye Relaxation - Palming", "Eye Circles", "Rapid Blinking"]

/-- Names of the entries of `BREATHING_EXERCISES` (lines 114-176). -/
def BREATHING_EXERCISES : List String :=
  ["Box Breathing", "4-7-8 Relaxing Breath", "Deep Belly Breathing",
   "Energizing Breath", "Calming Exhale Focus", "Three-Part Breath"]

/-- The two values taken by `last_secondary_type`. -/
inductive SecondaryType
  | eye
  | breathing
deriving DecidableEq, Repr

/-! ## Timer state and the reminder dispatcher (`trigger_stretch`) -/

/-- The mutable fields of `StretchTimerApp` that the countdown engine and
reminder dispatcher read or write.  `popupShown` records that
`show_stretch_popup` was invoked by the last trigger. -/
structure TimerState where
  running : Bool
  paused : Bool
  stretchCount : Nat
  remainingSeconds : Nat
  intervalMinutes : Nat
  lastSecondaryType : SecondaryType
  currentStretch : Option String
  currentSecondary : Option String
  quietEnabled : Bool
  quietStart : String
  quietEnd : String
  popupShown : Bool
deriving DecidableEq, Repr

/-- The state set up by `StretchTimerApp.__init__` (lines 530-558) before
any saved settings are applied: interval 45, timer idle,
`last_secondary_type = "breathing"`, quiet hours disabled with window
"18:00".."08:00". -/
def initState : TimerState :=
  { running := false
    paused := false
    stretchCount := 0
    remainingSeconds := 0
    intervalMinutes := 45
    lastSecondaryType := SecondaryType.breathing
    currentStretch := none
    currentSecondary := none
    quietEnabled := false
    quietStart := "18:00"
    quietEnd := "08:00"
    popupShown := false }

/-- Embedding of `trigger_stretch` (lines 1154-1211).  `random.choice`
is modelled by the supplied indices reduced modulo the catalog length;
the UI, sound and desktop-notification side effects carry no timer
state, so only `show_stretch_popup` is recorded (`popupShown`).  The
method ends by resetting `remaining_seconds = interval_minutes * 60`. -/
def trigger_stretch (s : TimerState) (stretchIdx secIdx : Nat) : TimerState :=
  let secondaryType :=
    if s.lastSecondaryType = SecondaryType.breathing then SecondaryType.eye
    else SecondaryType.breathing
  let secondaryName :=
    if s.lastSecondaryType = SecondaryType.breathing then
      EYE_EXERCISES.get? (secIdx % EYE_EXERCISES.length)
    else
      BREATHING_EXERCISES.get? (secIdx % BREATHING_EXERCISES.length)
  { s with
    stretchCount := s.stretchCount + 1
    lastSecondaryType := secondaryType
    currentStretch := STRETCHES.get? (stretchIdx % STRETCHES.length)
    currentSecondary := secondaryName
    popupShown := true
    remainingSeconds := s.intervalMinutes * 60 }

/-- Embedding of `start_timer` (lines 1065-1079). -/
def start_timer (s : TimerState) : TimerState :=
  { s with
    running := true
    paused := false
    stretchCount := 0
    remainingSeconds := s.intervalMinutes * 60 }

/-- One iteration of the `while self.running` body of `timer_loop`
(lines 1102-1127), at current wall-clock time-of-day `now`.  When the
countdown is at zero and quiet hours do not suppress, the loop schedules
`trigger_stretch` on the UI thread and then resets
`remaining_seconds = interval_minutes * 60`; `trigger_stretch` itself
performs the same reset, so executing it inline is equivalent.
`remaining_seconds` is a `Nat` here: the Python `int` is only ever
assigned `interval * 60` or decremented when positive, so the guard
`<= 0` coincides with `= 0`. -/
def timer_tick (s : TimerState) (now : TimeHM) (stretchIdx secIdx : Nat) :
    TimerState :=
  if !s.running then s
  else if s.paused then s
  else if s.remainingSeconds = 0 then
    if !is_quiet_hours s.quietEnabled s.quietStart s.quietEnd now then
      let t := trigger_stretch s stretchIdx secIdx
      { t with remainingSeconds := s.intervalMinutes * 60 }
    else { s with remainingSeconds := s.intervalMinutes * 60 }
  else { s with remainingSeconds := s.remainingSeconds - 1 }

/-- UI-thread actions interleaved with the ticking thread:
`toggle_pause` (lines 1090-1100) and a change of the interval spinbox
(`update_interval`, lines 1501-1505, which never touches
`remaining_seconds`). -/
inductive UIEvent
  | tick (now : TimeHM) (stretchIdx secIdx : Nat)
  | togglePause
  | setInterval (n : Nat)
deriving DecidableEq, Repr

/-- Apply one event to the timer state. -/
def uiStep (s : TimerState) : UIEvent → TimerState
  | UIEvent.tick now i j => timer_tick s now i j
  | UIEvent.togglePause => { s with paused := !s.paused }
  | UIEvent.setInterval n => { s with intervalMinutes := n }

/-- Run a sequence of events. -/
def runUI (s : TimerState) : List UIEvent → TimerState
  | [] => s
  | e :: es => runUI (uiStep s e) es

/-- Run a sequence of direct `trigger_stretch` calls (each pair gives
the two random draws of one call). -/
def runTriggers (s : TimerState) : List (Nat × Nat) → TimerState
  | [] => s
  | r :: rs => runTriggers (trigger_stretch s r.1 r.2) rs

/-- The secondary exercise types chosen by a sequence of
`trigger_stretch` calls, in order. -/
def triggerTypeSeq (s : TimerState) : List (Nat × Nat) → List SecondaryType
  | [] => []
  | r :: rs =>
    (trigger_stretch s r.1 r.2).lastSecondaryType ::
      triggerTypeSeq (trigger_stretch s r.1 r.2) rs

/-- The flip applied to `last_secondary_type` by each trigger. -/
def nextType (t : SecondaryType) : SecondaryType :=
  if t = SecondaryType.breathing then SecondaryType.eye
  else SecondaryType.breathing

/-! ## Settings store (`load_settings` / `save_settings`) -/

/-- The nine persisted preferences, as held in the application state
(tk variables plus `self.theme`). -/
structure Settings where
  interval_minutes : Int
  quiet_enabled : Bool
  quiet_start : String
  quiet_end : String
  theme : String
  custom_message : String
  popup_timeout_seconds : Int
  popup_persistent : Bool
  sound_enabled : Bool
deriving DecidableEq, Repr

/-- The defaults established by `__init__` before `load_settings` runs
(lines 530-560). -/
def defaultSettings : Settings :=
  { interval_minutes := 45
    quiet_enabled := false
    quiet_start := "18:00"
    quiet_end := "08:00"
    theme := "light"
    custom_message := "Time to Stretch!"
    popup_timeout_seconds := 180
    popup_persistent := false
    sound_enabled := true }

/-- A successfully parsed settings file: a JSON object in which each of
the nine keys may be present or absent. -/
structure SettingsFile where
  interval_minutes : Option Int
  quiet_enabled : Option Bool
  quiet_start : Option String
  quiet_end : Option String
  theme : Option String
  custom_message : Option String
  popup_timeout_seconds : Option Int
  popup_persistent : Option Bool
  sound_enabled : Option Bool
deriving DecidableEq, Repr

/-- The chain of `if "key" in settings:` assignments in `load_settings`
(lines 1546-1563), applied to the current in-memory settings.  This is
the well-typed restriction: `f` is assumed to be a JSON object whose
present values have the type of their tk variable and whose theme is a
`THEMES` key; `load_settings_json` below embeds the same lines without
those assumptions and keeps the exception paths. -/
def apply_loaded (s : Settings) (f : SettingsFile) : Settings :=
  let s := match f.interval_minutes with
    | some v => { s with interval_minutes := v }
    | none => s
  let s := match f.quiet_enabled with
    | some v => { s with quiet_enabled := v }
    | none => s
  let s := match f.quiet_start with
    | some v => { s with quiet_start := v }
    | none => s
  let s := match f.quiet_end with
    | some v => { s with quiet_end := v }
    | none => s
  let s := match f.theme with
    | some v => { s with theme := v }
    | none => s
  let s := match f.custom_message with
    | some v => { s with custom_message := v }
    | none => s
  let s := match f.popup_timeout_seconds with
    | some v => { s with popup_timeout_seconds := v }
    | none => s
  let s := match f.popup_persistent with
    | some v => { s with popup_persistent := v }
    | none => s
  match f.sound_enabled with
    | some v => { s with sound_enabled := v }
    | none => s

/-- Embedding of `load_settings` (lines 1535-1570) on well-typed
object documents.  `content` is `none` when the file is absent,
unreadable, or fails `json.load` (`JSONDecodeError`/`IOError` are
swallowed and the current state is kept unchanged); otherwise the
present keys are applied over `current`.  On documents outside this
domain the real function raises: that behavior is embedded by
`load_settings_json` below. -/
def load_settings (current : Settings) (content : Option SettingsFile) :
    Settings :=
  match content with
  | none => current
  | some f => apply_loaded current f

/-- Embedding of `save_settings` (lines 1572-1594): every one of the
nine keys is written. -/
def save_settings (s : Settings) : SettingsFile :=
  { interval_minutes := some s.interval_minutes
    quiet_enabled := some s.quiet_enabled
    quiet_start := some s.quiet_start
    quiet_end := some s.quiet_end
    theme := some s.theme
    custom_message := some s.custom_message
    popup_timeout_seconds := some s.popup_timeout_seconds
    popup_persistent := some s.popup_persistent
    sound_enabled := some s.sound_enabled }

/-- Validity of a settings record: spinbox ranges from `setup_ui`
(interval 1..120, popup timeout 10..300), a known theme, and quiet-hours
strings. -/
def Settings.valid (s : Settings) : Prop :=
  1 ≤ s.interval_minutes ∧ s.interval_minutes ≤ 120 ∧
  10 ≤ s.popup_timeout_seconds ∧ s.popup_timeout_seconds ≤ 300 ∧
  (s.theme = "light" ∨ s.theme = "dark")

instance (s : Settings) : Decidable s.valid := by
  unfold Settings.valid
  infer_instance

/-- A parsed JSON document, as returned by `json.load`: the file may
hold any JSON value, not only an object. -/
inductive Json
  | null
  | bool (b : Bool)
  | num (n : Int)
  | str (s : String)
  | arr (xs : List Json)
  | obj (fields : List (String × Json))

/-- The keys of the `THEMES` palette table (line 477). -/
def THEMES_keys : List String := ["light", "dark"]

/-- Python `key in settings` on the parsed document: key membership for
a dict, element membership for a list (a string key only equals string
elements), substring test for a string, and an uncaught `TypeError`
("argument of type ... is not iterable") for null, booleans and
numbers. -/
def jsonContains (j : Json) (key : String) : Except String Bool :=
  match j with
  | Json.obj fields => Except.ok (fields.any (fun p => p.1 == key))
  | Json.arr xs =>
    Except.ok (xs.any (fun v =>
      match v with
      | Json.str s => s == key
      | _ => false))
  | Json.str s => Except.ok ((s.splitOn key).length > 1)
  | _ => Except.error "TypeError"

/-- Python `settings[key]`: dict lookup (last duplicate key wins, as in
`json.load`), and an uncaught `TypeError` ("indices must be integers")
for a list or string document. -/
def jsonGet (j : Json) (key : String) : Except String Json :=
  match j with
  | Json.obj fields =>
    match fields.reverse.find? (fun p => p.1 == key) with
    | some p => Except.ok p.2
    | none => Except.error "KeyError"
  | _ => Except.error "TypeError"

/-- Embedding of `load_settings` (lines 1535-1570) over the parsed JSON
document, keeping the exception paths the `except` clause at line 1567
does not catch (it names only `JSONDecodeError` and `IOError`).  Each
`if "key" in settings:` guard propagates the `TypeError` that `in`
raises on a non-iterable document, each read propagates `jsonGet`
errors, and the theme branch embeds line 1559
`self.colors = THEMES[self.theme]`, which raises `KeyError` for any
theme outside the table.  A present key whose payload does not have its
tk variable's type is stored raw by `Variable.set` and only surfaces on
a later `get`; the typed record keeps its previous value for it.  An
uncaught exception aborts the remaining assignments, as in Python. -/
def load_settings_json (current : Settings) (content : Option Json) :
    Except String Settings :=
  match content with
  | none => Except.ok current
  | some settings => do
    let s := current
    let c ← jsonContains settings "interval_minutes"
    let s ← if c then do
        let v ← jsonGet settings "interval_minutes"
        pure (match v with
          | Json.num n => { s with interval_minutes := n }
          | _ => s)
      else pure s
    let c ← jsonContains settings "quiet_enabled"
    let s ← if c then do
        let v ← jsonGet settings "quiet_enabled"
        pure (match v with
          | Json.bool b => { s with quiet_enabled := b }
          | _ => s)
      else pure s
    let c ← jsonContains settings "quiet_start"
    let s ← if c then do
        let v ← jsonGet settings "quiet_start"
        pure (match v with
          | Json.str t => { s with quiet_start := t }
          | _ => s)
      else pure s
    let c ← jsonContains settings "quiet_end"
    let s ← if c then do
        let v ← jsonGet settings "quiet_end"
        pure (match v with
          | Json.str t => { s with quiet_end := t }
          | _ => s)
      else pure s
    let c ← jsonContains settings "theme"
    let s ← if c then do
        let v ← jsonGet settings "theme"
        match v with
        | Json.str t =>
          if THEMES_keys.contains t then pure { s with theme := t }
          else Except.error "KeyError"
        | _ => Except.error "KeyError"
      else pure s
    let c ← jsonContains settings "custom_message"
    let s ← if c then do
        let v ← jsonGet settings "custom_message"
        pure (match v with
          | Json.str t => { s with custom_message := t }
          | _ => s)
      else pure s
    let c ← jsonContains settings "popup_timeout_seconds"
    let s ← if c then do
        let v ← jsonGet settings "popup_timeout_seconds"
        pure (match v with
          | Json.num n => { s with popup_timeout_seconds := n }
          | _ => s)
      else pure s
    let c ← jsonContains settings "popup_persistent"
    let s ← if c then do
        let v ← jsonGet settings "popup_persistent"
        pure (match v with
          | Json.bool b => { s with popup_persistent := b }
          | _ => s)
      else pure s
    let c ← jsonContains settings "sound_enabled"
    let s ← if c then do
        let v ← jsonGet settings "sound_enabled"
        pure (match v with
          | Json.bool b => { s with sound_enabled := b }
          | _ => s)
      else pure s
    pure s

/-- Encode a well-typed optional-field record as the JSON object
`json.load` would return for it, present keys in file order. -/
def fileToJson (f : SettingsFile) : Json :=
  Json.obj (
    (match f.interval_minutes with
      | some v => [("interval_minutes", Json.num v)]
      | none => []) ++
    (match f.quiet_enabled with
      | some v => [("quiet_enabled", Json.bool v)]
      | none => []) ++
    (match f.quiet_start with
      | some v => [("quiet_start", Json.str v)]
      | none => []) ++
    (match f.quiet_end with
      | some v => [("quiet_end", Json.str v)]
      | none => []) ++
    (match f.theme with
      | some v => [("theme", Json.str v)]
      | none => []) ++
    (match f.custom_message with
      | some v => [("custom_message", Json.str v)]
      | none => []) ++
    (match f.popup_timeout_seconds with
      | some v => [("popup_timeout_seconds", Json.num v)]
      | none => []) ++
    (match f.popup_persistent with
      | some v => [("popup_persistent", Json.bool v)]
      | none => []) ++
    (match f.sound_enabled with
      | some v => [("sound_enabled", Json.bool v)]
      | none => []))

/-! ## Popup view (`show_stretch_popup`) -/

/-- The auto-close timer scheduled at the end of `show_stretch_popup`
(lines 1481-1485): `popup.after(timeout_seconds * 1000, destroy)` unless
persistent mode is on, in which case nothing is scheduled.  The result
is the scheduled delay in milliseconds, or `none`. -/
def popupAutoCloseDelay (popup_persistent : Bool)
    (popup_timeout_seconds : Nat) : Option Nat :=
  if !popup_persistent then some (popup_timeout_seconds * 1000) else none

/-- States of the popup view. -/
inductive PopupState
  | Hidden
  | Shown
  | Dismissed
  | TimedOut
deriving DecidableEq, Repr

/-- Events the popup can observe once shown: wall-clock time passing,
or the user pressing the Done button / closing the window. -/
inductive PopupEvent
  | elapse (ms : Nat)
  | dismiss
deriving DecidableEq, Repr

/-- One step of the popup life cycle under a scheduled auto-close delay
`sched` (in ms).  The pair carries the milliseconds elapsed since the
popup was shown; a scheduled `popup.after` fires once that reaches the
delay, and `popup.destroy` from the Done button closes it immediately.
A closed popup stays closed (`winfo_exists` guard). -/
def popupStep (sched : Option Nat) :
    PopupState × Nat → PopupEvent → PopupState × Nat
  | (PopupState.Shown, t), PopupEvent.elapse d =>
    let u := t + d
    (match sched with
     | some delay => if delay ≤ u then (PopupState.TimedOut, u) else (PopupState.Shown, u)
     | none => (PopupState.Shown, u))
  | (PopupState.Shown, t), PopupEvent.dismiss => (PopupState.Dismissed, t)
  | (st, t), _ => (st, t)

/-- Run the popup from just-shown through a sequence of events. -/
def runPopup (sched : Option Nat) (events : List PopupEvent) : PopupState :=
  (events.foldl (popupStep sched) (PopupState.Shown, 0)).1

/-- The suppression window condition as the specification words it, over
total minutes since midnight: `start ≤ end` gives the inclusive interval
`[start, end]`, `start > end` gives the wrapped window. -/
def suppressSpec (s e now : TimeHM) : Prop :=
  if s.toMinutes ≤ e.toMinutes then
    s.toMinutes ≤ now.toMinutes ∧ now.toMinutes ≤ e.toMinutes
  else
    now.toMinutes ≥ s.toMinutes ∨ now.toMinutes ≤ e.toMinutes

instance (s e now : TimeHM) : Decidable (suppressSpec s e now) := by
  unfold suppressSpec
  infer_instance

/-! ## Supporting lemmas -/

theorem parseHHMM_bounds {str : String} {t : TimeHM}
    (h : parseHHMM str = some t) : t.hour ≤ 23 ∧ t.minute ≤ 59 := by
  unfold parseHHMM at h
  split at h
  · split at h
    · split at h
      · rename_i hcond
        simp only [Option.some.injEq] at h
        subst h
        simp only [Bool.and_eq_true, decide_eq_true_eq] at hcond
        exact hcond
      · simp at h
    · simp at h
  · simp at h

theorem TimeHM.leB_iff {a b : TimeHM} (ha : a.minute ≤ 59) (hb : b.minute ≤ 59) :
    a.leB b = true ↔ a.toMinutes ≤ b.toMinutes := by
  simp only [TimeHM.leB, TimeHM.toMinutes, Bool.or_eq_true, Bool.and_eq_true,
    Nat.blt_eq, Nat.beq_eq, Nat.ble_eq, decide_eq_true_eq]
  omega

theorem trigger_lastType (s : TimerState) (i j : Nat) :
    (trigger_stretch s i j).lastSecondaryType = nextType s.lastSecondaryType :=
  rfl

theorem nextType_ne (t : SecondaryType) : nextType t ≠ t := by
  cases t <;> decide

theorem triggerTypeSeq_cons (s : TimerState) (r : Nat × Nat)
    (rs : List (Nat × Nat)) :
    triggerTypeSeq s (r :: rs) =
      (trigger_stretch s r.1 r.2).lastSecondaryType ::
        triggerTypeSeq (trigger_stretch s r.1 r.2) rs :=
  rfl

theorem runTriggers_cons (s : TimerState) (r : Nat × Nat)
    (rs : List (Nat × Nat)) :
    runTriggers s (r :: rs) = runTriggers (trigger_stretch s r.1 r.2) rs :=
  rfl

theorem chain_typeSeq (s : TimerState) (rs : List (Nat × Nat)) :
    List.Chain' (fun a b => a ≠ b)
      (s.lastSecondaryType :: triggerTypeSeq s rs) := by
  induction rs generalizing s with
  | nil => simp [triggerTypeSeq]
  | cons r rs ih =>
    rw [triggerTypeSeq_cons, List.chain'_cons]
    exact ⟨(nextType_ne s.lastSecondaryType).symm, ih (trigger_stretch s r.1 r.2)⟩

theorem runTriggers_lastType (s : TimerState) (rs : List (Nat × Nat))
    (h : rs ≠ []) :
    (triggerTypeSeq s rs).getLast? =
      some (runTriggers s rs).lastSecondaryType := by
  induction rs generalizing s with
  | nil => exact absurd rfl h
  | cons r rs ih =>
    cases rs with
    | nil => rfl
    | cons r2 rs2 =>
      rw [triggerTypeSeq_cons, triggerTypeSeq_cons, List.getLast?_cons_cons,
        ← triggerTypeSeq_cons, runTriggers_cons]
      exact ih (trigger_stretch s r.1 r.2) (by simp)

theorem triggerTypeSeq_get (rs : List (Nat × Nat)) :
    ∀ (s : TimerState) (i : Nat) (h : i < (triggerTypeSeq s rs).length),
      (triggerTypeSeq s rs).get ⟨i, h⟩ = nextType^[i + 1] s.lastSecondaryType := by
  induction rs with
  | nil =>
    intro s i h
    simp [triggerTypeSeq] at h
  | cons r rs ih =>
    intro s i h
    cases i with
    | zero => rfl
    | succ i2 =>
      have h2 : i2 < (triggerTypeSeq (trigger_stretch s r.1 r.2) rs).length := by
        have h3 := h
        rw [triggerTypeSeq_cons] at h3
        simpa using h3
      have hstep : (triggerTypeSeq s (r :: rs)).get ⟨i2 + 1, h⟩ =
          (triggerTypeSeq (trigger_stretch s r.1 r.2) rs).get ⟨i2, h2⟩ := rfl
      rw [hstep, ih (trigger_stretch s r.1 r.2) i2 h2, trigger_lastType,
        ← Function.iterate_succ_apply]

theorem nextType_iterate_breathing (n : Nat) :
    nextType^[n] SecondaryType.breathing =
      if n % 2 = 1 then SecondaryType.eye else SecondaryType.breathing := by
  induction n with
  | zero => rfl
  | succ n ih =>
    rw [Function.iterate_succ_apply', ih]
    rcases Nat.mod_two_eq_zero_or_one n with h | h
    · have h2 : (n + 1) % 2 = 1 := by omega
      simp [h, h2, nextType]
    · have h2 : (n + 1) % 2 = 0 := by omega
      simp [h, h2, nextType]

/-! ## The claims -/

/-- C1.  With quiet hours enabled and both configured times parsing as
"HH:MM", `is_quiet_hours` suppresses exactly on the window the
specification describes: for `start ≤ end`, iff `start ≤ now ≤ end`
(inclusive on both ends); for `start > end` (wrapping midnight), iff
`now ≥ start` or `now ≤ end`. -/
theorem quiet_hours_window_correct (ss es : String) (s e now : TimeHM)
    (hs : parseHHMM ss = some s) (he : parseHHMM es = some e)
    (hnow : now.minute ≤ 59) :
    is_quiet_hours true ss es now = true ↔ suppressSpec s e now := by
  have hsb := parseHHMM_bounds hs
  have heb := parseHHMM_bounds he
  have h1 := TimeHM.leB_iff hsb.2 heb.2
  have h2 := TimeHM.leB_iff hsb.2 hnow
  have h3 := TimeHM.leB_iff hnow heb.2
  cases hse : s.leB e with
  | true =>
    have hm : s.toMinutes ≤ e.toMinutes := h1.mp hse
    simp [is_quiet_hours, hs, he, hse, suppressSpec, hm, h2, h3]
  | false =>
    have hm : ¬ s.toMinutes ≤ e.toMinutes := by
      intro hc
      have h4 := h1.mpr hc
      rw [hse] at h4
      exact absurd h4 (by simp)
    simp [is_quiet_hours, hs, he, hse, suppressSpec, hm, h2, h3]

/-- Witness for C1 on the spec scenario: window "22:00"-"06:00",
now 23:30 → suppressed. -/
theorem quiet_hours_window_correct_witness :
    is_quiet_hours true "22:00" "06:00" ⟨23, 30⟩ = true :=
  (quiet_hours_window_correct "22:00" "06:00" ⟨22, 0⟩ ⟨6, 0⟩ ⟨23, 30⟩
    (by decide) (by decide) (by decide)).mpr (by decide)

/-- C7.  `is_quiet_hours` returns `false` whenever quiet hours are
disabled, and whenever either configured time string fails to parse as
"HH:MM" (the `ValueError` from `strptime` is caught and mapped to
`False`), for every current time; the evaluator is a total function, so
malformed strings never surface an error. -/
theorem quiet_hours_fail_open (en : Bool) (ss es : String) (now : TimeHM)
    (h : en = false ∨ parseHHMM ss = none ∨ parseHHMM es = none) :
    is_quiet_hours en ss es now = false := by
  rcases h with h | h | h
  · simp [is_quiet_hours, h]
  · cases en with
    | false => simp [is_quiet_hours]
    | true =>
      simp only [is_quiet_hours, Bool.not_true, Bool.false_eq_true, if_false]
      rw [h]
  · cases en with
    | false => simp [is_quiet_hours]
    | true =>
      simp only [is_quiet_hours, Bool.not_true, Bool.false_eq_true, if_false]
      rw [h]
      cases parseHHMM ss <;> rfl

theorem timer_tick_bound (s : TimerState) (now : TimeHM) (i j : Nat)
    (h : s.remainingSeconds ≤ s.intervalMinutes * 60) :
    (timer_tick s now i j).remainingSeconds ≤
      (timer_tick s now i j).intervalMinutes * 60 := by
  unfold timer_tick
  split_ifs <;> (try simp [trigger_stretch]) <;> omega

theorem runUI_bound (events : List UIEvent) :
    ∀ s : TimerState, (∀ n, UIEvent.setInterval n ∉ events) →
      s.remainingSeconds ≤ s.intervalMinutes * 60 →
      (runUI s events).remainingSeconds ≤
        (runUI s events).intervalMinutes * 60 := by
  induction events with
  | nil => exact fun s _ h => h
  | cons e es ih =>
    intro s hev h
    cases e with
    | tick now i j =>
      exact ih (timer_tick s now i j)
        (fun n hn => hev n (List.mem_cons_of_mem _ hn))
        (timer_tick_bound s now i j h)
    | togglePause =>
      exact ih _ (fun n hn => hev n (List.mem_cons_of_mem _ hn)) h
    | setInterval n => exact absurd (List.mem_cons_self _ _) (hev n)

/-- C3 fails as stated: the UI leaves the interval spinbox enabled while
the timer runs, `update_interval` never touches `remaining_seconds`, so
lowering the interval from 2 to 1 minute right after starting leaves
`remaining_seconds = 120 > 60 = interval_minutes * 60`. -/
theorem remaining_bound_counterexample :
    ¬ ((runUI (start_timer { initState with intervalMinutes := 2 })
          [UIEvent.setInterval 1]).remainingSeconds ≤
        (runUI (start_timer { initState with intervalMinutes := 2 })
          [UIEvent.setInterval 1]).intervalMinutes * 60) := by
  decide

/-- C3 amended: over every sequence of ticks and pause toggles that
contains no interval change, a started timer keeps
`0 ≤ remaining_seconds ≤ interval_minutes * 60`. -/
theorem remaining_bound_invariant (s0 : TimerState) (events : List UIEvent)
    (hev : ∀ n, UIEvent.setInterval n ∉ events) :
    0 ≤ (runUI (start_timer s0) events).remainingSeconds ∧
    (runUI (start_timer s0) events).remainingSeconds ≤
      (runUI (start_timer s0) events).intervalMinutes * 60 :=
  ⟨Nat.zero_le _, runUI_bound events (start_timer s0) hev (le_refl _)⟩

/-- Witness for the amended C3 on a concrete tick/pause/tick run. -/
theorem remaining_bound_invariant_witness :
    0 ≤ (runUI (start_timer initState)
        [UIEvent.tick ⟨12, 0⟩ 0 0, UIEvent.togglePause,
          UIEvent.tick ⟨12, 0⟩ 1 1]).remainingSeconds ∧
    (runUI (start_timer initState)
        [UIEvent.tick ⟨12, 0⟩ 0 0, UIEvent.togglePause,
          UIEvent.tick ⟨12, 0⟩ 1 1]).remainingSeconds ≤
      (runUI (start_timer initState)
        [UIEvent.tick ⟨12, 0⟩ 0 0, UIEvent.togglePause,
          UIEvent.tick ⟨12, 0⟩ 1 1]).intervalMinutes * 60 :=
  remaining_bound_invariant initState
    [UIEvent.tick ⟨12, 0⟩ 0 0, UIEvent.togglePause, UIEvent.tick ⟨12, 0⟩ 1 1]
    (by
      intro n hn
      simp at hn)

set_option maxRecDepth 10000

/-- C4 fails as stated: with interval 1 and quiet hours disabled,
`start_timer` sets `remaining_seconds = 60` and each of the first 60
ticks only decrements, so after exactly 60 ticks no trigger has fired
and `remaining_seconds = 0`, not 60. -/
theorem sixty_ticks_counterexample :
    (runUI (start_timer { initState with intervalMinutes := 1 })
        (List.replicate 60 (UIEvent.tick ⟨12, 0⟩ 0 0))).stretchCount = 0 ∧
    (runUI (start_timer { initState with intervalMinutes := 1 })
        (List.replicate 60 (UIEvent.tick ⟨12, 0⟩ 0 0))).remainingSeconds = 0 ∧
    ¬ ((runUI (start_timer { initState with intervalMinutes := 1 })
          (List.replicate 60 (UIEvent.tick ⟨12, 0⟩ 0 0))).stretchCount = 1 ∧
       (runUI (start_timer { initState with intervalMinutes := 1 })
          (List.replicate 60 (UIEvent.tick ⟨12, 0⟩ 0 0))).remainingSeconds
         = 60) := by
  decide

/-- C4 amended: the trigger fires on the tick that observes
`remaining_seconds = 0`, i.e. the 61st tick after starting; running 61
unpaused ticks fires exactly one trigger and resets
`remaining_seconds` to 60. -/
theorem sixty_one_ticks_one_trigger :
    (runUI (start_timer { initState with intervalMinutes := 1 })
        (List.replicate 61 (UIEvent.tick ⟨12, 0⟩ 0 0))).stretchCount = 1 ∧
    (runUI (start_timer { initState with intervalMinutes := 1 })
        (List.replicate 61 (UIEvent.tick ⟨12, 0⟩ 0 0))).remainingSeconds
      = 60 := by
  decide

/-- C2.  Across any sequence of consecutive `trigger_stretch` calls the
chosen secondary exercise type strictly alternates (consecutive types
differ), and `last_secondary_type` always equals the type of the most
recent trigger. -/
theorem secondary_type_alternates (s : TimerState) (rs : List (Nat × Nat)) :
    (∀ (i : Nat) (h : i < (triggerTypeSeq s rs).length - 1),
      (triggerTypeSeq s rs).get ⟨i, by omega⟩ ≠
        (triggerTypeSeq s rs).get ⟨i + 1, by omega⟩) ∧
    (rs ≠ [] →
      (triggerTypeSeq s rs).getLast? =
        some (runTriggers s rs).lastSecondaryType) := by
  constructor
  · exact List.chain'_iff_get.mp (chain_typeSeq s rs).tail
  · exact runTriggers_lastType s rs

/-- Witness for C2: two consecutive triggers from the fresh app state
choose different types, and the state records the latest one. -/
theorem secondary_type_alternates_witness :
    (triggerTypeSeq initState [(0, 0), (1, 2)]).get ⟨0, by decide⟩ ≠
      (triggerTypeSeq initState [(0, 0), (1, 2)]).get ⟨1, by decide⟩ ∧
    (triggerTypeSeq initState [(0, 0), (1, 2)]).getLast? =
      some (runTriggers initState [(0, 0), (1, 2)]).lastSecondaryType :=
  ⟨(secondary_type_alternates initState [(0, 0), (1, 2)]).1 0 (by decide),
   (secondary_type_alternates initState [(0, 0), (1, 2)]).2 (by decide)⟩

/-- C10.  The fresh application state initializes
`last_secondary_type = "breathing"`, so the secondary type of the
(i+1)-th trigger from startup is eye for even i and breathing for odd i:
the sequence is eye, breathing, eye, breathing, ... -/
theorem first_secondary_is_eye :
    initState.lastSecondaryType = SecondaryType.breathing ∧
    ∀ (rs : List (Nat × Nat)) (i : Nat)
      (h : i < (triggerTypeSeq initState rs).length),
      (triggerTypeSeq initState rs).get ⟨i, h⟩ =
        if i % 2 = 0 then SecondaryType.eye else SecondaryType.breathing := by
  refine ⟨rfl, fun rs i h => ?_⟩
  rw [triggerTypeSeq_get rs initState i h]
  show nextType^[i + 1] SecondaryType.breathing = _
  rw [nextType_iterate_breathing]
  rcases Nat.mod_two_eq_zero_or_one i with h2 | h2
  · have h3 : (i + 1) % 2 = 1 := by omega
    simp [h2, h3]
  · have h3 : (i + 1) % 2 = 0 := by omega
    simp [h2, h3]

/-- Witness for C10: the first trigger from startup picks an eye
exercise. -/
theorem first_secondary_is_eye_witness :
    (triggerTypeSeq initState [(3, 4)]).get ⟨0, by decide⟩ =
      SecondaryType.eye :=
  first_secondary_is_eye.2 [(3, 4)] 0 (by decide)

/-- Witness for C7: disabled evaluator, and a malformed start time
"25:00", both yield no suppression. -/
theorem quiet_hours_fail_open_witness :
    is_quiet_hours false "18:00" "08:00" ⟨12, 0⟩ = false ∧
    is_quiet_hours true "25:00" "08:00" ⟨12, 0⟩ = false :=
  ⟨quiet_hours_fail_open false "18:00" "08:00" ⟨12, 0⟩ (Or.inl rfl),
   quiet_hours_fail_open true "25:00" "08:00" ⟨12, 0⟩
     (Or.inr (Or.inl (by decide)))⟩

/-- C5.  Round trip: saving a valid settings record writes all nine
keys, and loading the resulting file over the startup defaults applies
every one of them, returning the record unchanged. -/
theorem settings_round_trip (S : Settings) (h : S.valid) :
    load_settings defaultSettings (some (save_settings S)) = S := by
  obtain ⟨a, b, c, d, e, g, p, q, r⟩ := S
  rfl

/-- Witness for C5 at the default settings record. -/
theorem settings_round_trip_witness :
    defaultSettings.valid ∧
    load_settings defaultSettings (some (save_settings defaultSettings)) =
      defaultSettings :=
  ⟨by decide, settings_round_trip defaultSettings (by decide)⟩

/-- Fallback behavior of the well-typed restriction `load_settings`: a
missing or unparseable file (`none`) yields the startup defaults
unchanged, and on a well-typed object each individually missing key
keeps its default while every present key is applied.  This is the
intended behavior the spec describes; `load_settings_raises` shows the
real function leaves it on the exception paths. -/
theorem load_settings_defaults_fallback :
    load_settings defaultSettings none = defaultSettings ∧
    ∀ f : SettingsFile,
      load_settings defaultSettings (some f) =
        { interval_minutes :=
            f.interval_minutes.getD defaultSettings.interval_minutes
          quiet_enabled := f.quiet_enabled.getD defaultSettings.quiet_enabled
          quiet_start := f.quiet_start.getD defaultSettings.quiet_start
          quiet_end := f.quiet_end.getD defaultSettings.quiet_end
          theme := f.theme.getD defaultSettings.theme
          custom_message :=
            f.custom_message.getD defaultSettings.custom_message
          popup_timeout_seconds :=
            f.popup_timeout_seconds.getD defaultSettings.popup_timeout_seconds
          popup_persistent :=
            f.popup_persistent.getD defaultSettings.popup_persistent
          sound_enabled :=
            f.sound_enabled.getD defaultSettings.sound_enabled } := by
  refine ⟨rfl, fun f => ?_⟩
  obtain ⟨a, b, c, d, e, g, p, q, r⟩ := f
  cases a <;> cases b <;> cases c <;> cases d <;> cases e <;> cases g <;>
    cases p <;> cases q <;> cases r <;> rfl

/-- C6.  The claim (like the spec and the function's own docstring,
"Uses default values if file doesn't exist or is corrupted") promises
`load()` never raises, but the `except` clause at line 1567 catches only
`JSONDecodeError` and `IOError`: a file whose JSON content is `null` or
`42` raises an uncaught `TypeError` at `"interval_minutes" in settings`
(line 1549), and `{"theme": "blue"}` raises an uncaught `KeyError` at
`THEMES[self.theme]` (line 1559).  An absent or unparseable file, the
empty object, and individually missing keys do fall back to defaults as
claimed. -/
theorem load_settings_raises :
    load_settings_json defaultSettings (some Json.null) =
      Except.error "TypeError" ∧
    load_settings_json defaultSettings (some (Json.num 42)) =
      Except.error "TypeError" ∧
    load_settings_json defaultSettings
        (some (Json.obj [("theme", Json.str "blue")])) =
      Except.error "KeyError" ∧
    load_settings_json defaultSettings none = Except.ok defaultSettings ∧
    load_settings_json defaultSettings (some (Json.obj [])) =
      Except.ok defaultSettings ∧
    load_settings_json defaultSettings
        (some (Json.obj [("interval_minutes", Json.num 30)])) =
      Except.ok { defaultSettings with interval_minutes := 30 } := by
  exact ⟨rfl, rfl, rfl, rfl, rfl, rfl⟩

/-- On a well-typed saved document the exception-faithful embedding
agrees with the typed restriction: loading back a saved valid record
succeeds and returns what `load_settings` returns. -/
theorem load_settings_json_agrees_on_save (S : Settings) (h : S.valid) :
    load_settings_json defaultSettings
        (some (fileToJson (save_settings S))) =
      Except.ok (load_settings defaultSettings (some (save_settings S))) := by
  obtain ⟨a, b, c, d, e, g, p, q, r⟩ := S
  rcases h with ⟨-, -, -, -, he | he⟩ <;> subst he <;> rfl

theorem popup_no_sched_shown (events : List PopupEvent)
    (h : PopupEvent.dismiss ∉ events) :
    ∀ t : Nat,
      (events.foldl (popupStep none) (PopupState.Shown, t)).1 =
        PopupState.Shown := by
  induction events with
  | nil => intro t; rfl
  | cons e es ih =>
    intro t
    cases e with
    | elapse d =>
      exact ih (fun hm => h (List.mem_cons_of_mem _ hm)) (t + d)
    | dismiss => exact absurd (List.mem_cons_self _ _) h

/-- C8.  With `popup_persistent = true`, `show_stretch_popup` schedules
no auto-close (`popup.after` is skipped), so however much time elapses
the popup never reaches `TimedOut` and closes only on explicit
dismissal; with `popup_persistent = false` an auto-close is scheduled
for `popup_timeout_seconds * 1000` ms, and once that delay elapses the
popup times out. -/
theorem popup_auto_close_spec (timeout : Nat) (events : List PopupEvent)
    (h : PopupEvent.dismiss ∉ events) :
    popupAutoCloseDelay true timeout = none ∧
    runPopup (popupAutoCloseDelay true timeout) events = PopupState.Shown ∧
    runPopup (popupAutoCloseDelay true timeout)
      (events ++ [PopupEvent.dismiss]) = PopupState.Dismissed ∧
    popupAutoCloseDelay false timeout = some (timeout * 1000) ∧
    runPopup (popupAutoCloseDelay false timeout)
      [PopupEvent.elapse (timeout * 1000)] = PopupState.TimedOut := by
  refine ⟨rfl, popup_no_sched_shown events h 0, ?_, rfl, ?_⟩
  · show (List.foldl (popupStep none) (PopupState.Shown, 0)
        (events ++ [PopupEvent.dismiss])).1 = _
    rw [List.foldl_append]
    rcases hf : List.foldl (popupStep none) (PopupState.Shown, 0) events
      with ⟨st, t⟩
    have h1 : st = PopupState.Shown := by
      have h2 := popup_no_sched_shown events h 0
      rw [hf] at h2
      exact h2
    subst h1
    rfl
  · show (popupStep (some (timeout * 1000)) (PopupState.Shown, 0)
        (PopupEvent.elapse (timeout * 1000))).1 = _
    simp [popupStep]

/-- Witness for C8: persistent popup survives a long elapse; a
non-persistent one with a 10 s timeout times out after 10000 ms. -/
theorem popup_auto_close_spec_witness :
    runPopup (popupAutoCloseDelay true 10) [PopupEvent.elapse 999999] =
      PopupState.Shown ∧
    runPopup (popupAutoCloseDelay false 10) [PopupEvent.elapse 10000] =
      PopupState.TimedOut :=
  ⟨(popup_auto_close_spec 10 [PopupEvent.elapse 999999] (by decide)).2.1,
   (popup_auto_close_spec 10 [PopupEvent.elapse 999999] (by decide)).2.2.2.2⟩

/-- C9.  A manual "Now" invocation calls `trigger_stretch` directly:
it increments `stretch_count`, selects a stretch, and shows the popup
in every state, and its result does not depend on the quiet-hours
configuration at all; the countdown loop consults `is_quiet_hours` only
on the tick that observes `remaining_seconds = 0`. -/
theorem trigger_now_ignores_quiet (s : TimerState) (q : Bool)
    (qs qe : String) (i j : Nat) (now : TimeHM) :
    (trigger_stretch s i j).stretchCount = s.stretchCount + 1 ∧
    (trigger_stretch s i j).popupShown = true ∧
    (trigger_stretch s i j).currentStretch =
      STRETCHES.get? (i % STRETCHES.length) ∧
    trigger_stretch
        { s with quietEnabled := q, quietStart := qs, quietEnd := qe } i j
      = { trigger_stretch s i j with
          quietEnabled := q, quietStart := qs, quietEnd := qe } ∧
    (s.remainingSeconds ≠ 0 →
      timer_tick
          { s with quietEnabled := q, quietStart := qs, quietEnd := qe }
          now i j
        = { timer_tick s now i j with
            quietEnabled := q, quietStart := qs, quietEnd := qe }) := by
  obtain ⟨run, pau, cnt, rem, intv, last, cs, csec, qe0, qs0, qd0, ps⟩ := s
  refine ⟨rfl, rfl, rfl, rfl, fun hrem => ?_⟩
  unfold timer_tick
  dsimp only
  split_ifs <;> rfl

/-- Witness for C9: quiet hours enabled with current time 23:30 inside
the window "22:00"-"06:00"; the manual trigger still counts, and a
mid-countdown tick never consults the quiet configuration. -/
theorem trigger_now_ignores_quiet_witness :
    (trigger_stretch { initState with remainingSeconds := 5 } 0 0).stretchCount
      = { initState with remainingSeconds := 5 }.stretchCount + 1 ∧
    timer_tick
        { { initState with remainingSeconds := 5 } with
          quietEnabled := true, quietStart := "22:00", quietEnd := "06:00" }
        ⟨23, 30⟩ 0 0
      = { timer_tick { initState with remainingSeconds := 5 } ⟨23, 30⟩ 0 0 with
          quietEnabled := true, quietStart := "22:00",
          quietEnd := "06:00" } := by
  have h := trigger_now_ignores_quiet { initState with remainingSeconds := 5 }
    true "22:00" "06:00" 0 0 ⟨23, 30⟩
  exact ⟨h.1, h.2.2.2.2 (by decide)⟩

end StretchTimer
